import Mathlib

/-!
Shallow embedding of `llm-management-api.py`, the service-lifecycle
supervisor of the GlobalNews-Letter repository.

The Python module is a Flask app managing two services, `nllb` (port 8000)
and `ollama` (port 8001).  Its external effects (HTTP health probes,
process-by-port lookup, bash script execution) are modelled by a `World`
oracle indexed by elapsed seconds; `time.sleep` advances the clock, all
other operations are instantaneous.  Each embedded handler additionally
returns the list of external events it performed, so that properties such
as "executes zero scripts" or "polls at most 15 times at 2-second
intervals" are statable.
-/

namespace LLMApi

/-- Outcome of `subprocess.run(['bash', script], ..., timeout=30)` as seen
by `run_script`: normal completion with captured stdout/stderr/exit code,
a `subprocess.TimeoutExpired`, or any other exception with its message. -/
inductive ScriptOutcome where
  | completed (stdout stderr : String) (code : Int)
  | timedOut
  | exc (msg : String)
deriving DecidableEq, Repr

/-- Embedding of `run_script` (source lines 38-48): returns the triple
`(stdout, stderr, returncode)`; `TimeoutExpired` is caught and collapsed
to `('', 'Script timed out', 1)`, any other exception to `('', str(e), 1)`. -/
def run_script : ScriptOutcome → String × String × Int
  | ScriptOutcome.completed out err c => (out, err, c)
  | ScriptOutcome.timedOut => ("", "Script timed out", 1)
  | ScriptOutcome.exc e => ("", e, 1)

/-- Per-service mutable record of the global `service_processes` dict:
`{'pid': ..., 'status': ..., 'start_time': ...}`. -/
structure ServiceState where
  pid : Option Nat
  status : String
  start_time : Option Nat
deriving DecidableEq, Repr

/-- The registry: the `service_processes` dict has exactly the two fixed
keys `nllb` and `ollama`. -/
structure Registry where
  nllb : ServiceState
  ollama : ServiceState
deriving DecidableEq, Repr

/-- Initial value of the `service_processes` global (source lines 30-34). -/
def service_processes : Registry :=
  { nllb := { pid := none, status := "stopped", start_time := none },
    ollama := { pid := none, status := "stopped", start_time := none } }

/-- Dictionary read `service_processes[s]`; only ever reached with
`s` one of the two fixed keys. -/
def Registry.get (r : Registry) (s : String) : ServiceState :=
  if s = "nllb" then r.nllb
  else if s = "ollama" then r.ollama
  else { pid := none, status := "stopped", start_time := none }

/-- Dictionary write `service_processes[s][...] = ...`; only ever reached
with `s` one of the two fixed keys. -/
def Registry.set (r : Registry) (s : String) (st : ServiceState) : Registry :=
  if s = "nllb" then { r with nllb := st }
  else if s = "ollama" then { r with ollama := st }
  else r

/-- External observations available to the process, indexed by elapsed
seconds: the health endpoint answer per URL, the pid listening on a port,
and the outcome of each control script per service name. -/
structure World where
  health : Nat → String → Bool
  portPid : Nat → Nat → Option Nat
  startScript : String → ScriptOutcome
  stopScript : String → ScriptOutcome

/-- One observable external action of a handler. -/
inductive Event where
  | script (path : String) (outcome : ScriptOutcome)
  | probe (service : String) (result : Bool)
  | sleep (seconds : Nat)
  | portQuery (port : Nat) (result : Option Nat)
deriving DecidableEq, Repr

/-- Embedding of `check_service_health` (source lines 50-63): maps the
service name to its health URL, performs a bounded GET collapsed to a
boolean, and returns `False` for any other name without probing. -/
def check_service_health (w : World) (t : Nat) (service : String) :
    Bool × List Event :=
  if service = "nllb" then
    let r := w.health t "http://localhost:8000/health"
    (r, [Event.probe service r])
  else if service = "ollama" then
    let r := w.health t "http://localhost:8001/health"
    (r, [Event.probe service r])
  else (false, [])

/-- Embedding of `get_process_by_port` (source lines 65-77): the psutil
scan with all exceptions swallowed, modelled as a direct oracle lookup. -/
def get_process_by_port (w : World) (t : Nat) (port : Nat) :
    Option Nat × List Event :=
  (w.portPid t port, [Event.portQuery port (w.portPid t port)])

/-- Python truthiness of the pid returned by `get_process_by_port`:
`None` and `0` are falsy. -/
def pidTruthy : Option Nat → Bool
  | none => false
  | some p => decide (p ≠ 0)

/-- One iteration of the loop body of `update_service_status` for a single
service: look up the pid on the configured port and, when it is truthy,
probe health; write `running`/pid or `stopped`/`None` accordingly. -/
def update_one (w : World) (t : Nat) (service : String) (reg : Registry) :
    Registry × List Event :=
  let port : Nat := if service = "nllb" then 8000 else 8001
  let pq := get_process_by_port w t port
  if pidTruthy pq.1 then
    let hc := check_service_health w t service
    if hc.1 then
      (reg.set service { reg.get service with pid := pq.1, status := "running" },
       pq.2 ++ hc.2)
    else
      (reg.set service { reg.get service with pid := none, status := "stopped" },
       pq.2 ++ hc.2)
  else
    (reg.set service { reg.get service with pid := none, status := "stopped" },
     pq.2)

/-- Embedding of `update_service_status` (source lines 79-90): reconcile
both registry entries, `nllb` first then `ollama`. -/
def update_service_status (w : World) (t : Nat) (reg : Registry) :
    Registry × List Event :=
  let u1 := update_one w t "nllb" reg
  let u2 := update_one w t "ollama" u1.1
  (u2.1, u1.2 ++ u2.2)

/-- JSON body of a lifecycle response, with the fields the handlers emit. -/
structure Body where
  success : Option Bool
  message : Option String
  error : Option String
  status : Option String
  stdout : Option String
deriving DecidableEq, Repr

/-- Flask handler return value: either a bare `jsonify(...)` Response
(HTTP 200) or a `(jsonify(...), code)` tuple. -/
inductive Resp where
  | ok (body : Body)
  | withCode (body : Body) (code : Nat)
deriving DecidableEq, Repr

/-- Result of running a handler: a returned response, or an unhandled
Python exception (which Flask converts to a generic 500). -/
inductive HResult where
  | resp (r : Resp)
  | crash (msg : String)
deriving DecidableEq, Repr

/-- Full outcome of one handler invocation: result, registry after the
call, clock after the call, and the external events performed. -/
structure HOut where
  res : HResult
  reg : Registry
  time : Nat
  trace : List Event
deriving DecidableEq, Repr

/-- The empty optional-field body, for responses that set few fields. -/
def Body.base : Body :=
  { success := none, message := none, error := none, status := none,
    stdout := none }

/-- The `jsonify({'error': 'Invalid service'}), 400` response shared by
the three lifecycle endpoints. -/
def invalidServiceOut (reg : Registry) (t : Nat) : HOut :=
  { res := HResult.resp (Resp.withCode
      { Body.base with error := some "Invalid service" } 400),
    reg := reg, time := t, trace := [] }

/-- The `for _ in range(15): time.sleep(2); if check_service_health ...`
polling loop at the end of `start_service` (source lines 144-160),
with the fuel argument standing for the remaining range iterations. -/
def startPoll (w : World) (reg : Registry) (service stdout : String)
    (acc : List Event) (t : Nat) : Nat → HOut
  | 0 =>
    { res := HResult.resp (Resp.withCode
        { Body.base with
          success := some false,
          error := some (service ++ " service failed to start within timeout"),
          stdout := some stdout } 500),
      reg := reg, time := t, trace := acc }
  | Nat.succ n =>
    let t2 := t + 2
    let hc := check_service_health w t2 service
    if hc.1 then
      let u := update_service_status w t2 reg
      { res := HResult.resp (Resp.ok
          { Body.base with
          success := some true,
            message := some (service ++ " service started successfully"),
            status := some "running", stdout := some stdout }),
        reg := u.1, time := t2, trace := acc ++ [Event.sleep 2] ++ hc.2 ++ u.2 }
    else
      startPoll w reg service stdout (acc ++ [Event.sleep 2] ++ hc.2) t2 n

/-- Embedding of the `start_service` handler (source lines 119-160). -/
def start_service (w : World) (t : Nat) (reg : Registry) (service : String) :
    HOut :=
  if ¬ (service = "nllb" ∨ service = "ollama") then
    invalidServiceOut reg t
  else
    let hc := check_service_health w t service
    if hc.1 then
      { res := HResult.resp (Resp.ok
          { Body.base with
          success := some true,
            message := some (service ++ " service is already running"),
            status := some "running" }),
        reg := reg, time := t, trace := hc.2 }
    else
      let outcome := w.startScript service
      let r := run_script outcome
      let escript := [Event.script ("start-" ++ service ++ ".sh") outcome]
      if r.2.2 ≠ 0 then
        { res := HResult.resp (Resp.withCode
            { Body.base with
          success := some false,
              error := some ("Failed to start " ++ service ++ ": " ++ r.2.1),
              stdout := some r.1 } 500),
          reg := reg, time := t, trace := hc.2 ++ escript }
      else
        startPoll w reg service r.1 (hc.2 ++ escript) t 15

/-- Embedding of the `stop_service` handler (source lines 162-188). -/
def stop_service (w : World) (t : Nat) (reg : Registry) (service : String) :
    HOut :=
  if ¬ (service = "nllb" ∨ service = "ollama") then
    invalidServiceOut reg t
  else
    let outcome := w.stopScript service
    let r := run_script outcome
    let escript := [Event.script ("stop-" ++ service ++ ".sh") outcome]
    if r.2.2 ≠ 0 then
      { res := HResult.resp (Resp.withCode
          { Body.base with
          success := some false,
            error := some ("Failed to stop " ++ service ++ ": " ++ r.2.1),
            stdout := some r.1 } 500),
        reg := reg, time := t, trace := escript }
    else
      let t2 := t + 2
      let u := update_service_status w t2 reg
      { res := HResult.resp (Resp.ok
          { Body.base with
          success := some true,
            message := some (service ++ " service stopped successfully"),
            status := some ((Registry.get u.1 service).status),
            stdout := some r.1 }),
        reg := u.1, time := t2, trace := escript ++ [Event.sleep 2] ++ u.2 }

/-- Embedding of the `restart_service` handler (source lines 190-205).
The Python code evaluates `stop_result[0]`; when `stop_service` succeeded
it returned a bare Flask `Response`, which does not support subscripting,
so the handler raises `TypeError` and Flask answers with a generic 500. -/
def restart_service (w : World) (t : Nat) (reg : Registry) (service : String) :
    HOut :=
  if ¬ (service = "nllb" ∨ service = "ollama") then
    invalidServiceOut reg t
  else
    let so := stop_service w t reg service
    match so.res with
    | HResult.resp (Resp.ok _) =>
      { res := HResult.crash "TypeError: Response object is not subscriptable",
        reg := so.reg, time := so.time, trace := so.trace }
    | HResult.resp (Resp.withCode body code) =>
      if ¬ (body.success.getD false) then
        { res := HResult.resp (Resp.withCode body code),
          reg := so.reg, time := so.time, trace := so.trace }
      else
        let out := start_service w (so.time + 2) so.reg service
        { res := out.res, reg := out.reg, time := out.time,
          trace := so.trace ++ [Event.sleep 2] ++ out.trace }
    | HResult.crash m =>
      { res := HResult.crash m, reg := so.reg, time := so.time,
        trace := so.trace }

/-- Per-service block of the `GET /services/status` response body. -/
structure ServiceStatusView where
  status : String
  pid : Option Nat
  healthy : Bool
  port : Nat
  endpoint : String
deriving DecidableEq, Repr

/-- Full `GET /services/status` response body. -/
structure StatusBody where
  nllb : ServiceStatusView
  ollama : ServiceStatusView
deriving DecidableEq, Repr

/-- Embedding of the `get_services_status` handler (source lines 97-117):
reconcile, then report each entry of the (now updated) registry together
with a fresh health probe per service. -/
def get_services_status (w : World) (t : Nat) (reg : Registry) :
    StatusBody × Registry × List Event :=
  let u := update_service_status w t reg
  let h1 := check_service_health w t "nllb"
  let h2 := check_service_health w t "ollama"
  ({ nllb := { status := u.1.nllb.status, pid := u.1.nllb.pid,
               healthy := h1.1, port := 8000,
               endpoint := "http://localhost:8000" },
     ollama := { status := u.1.ollama.status, pid := u.1.ollama.pid,
                 healthy := h2.1, port := 8001,
                 endpoint := "http://localhost:8001" } },
   u.1, u.2 ++ h1.2 ++ h2.2)

/-- One inbound API request, for reasoning about arbitrary sequences of
handler invocations. -/
inductive Call where
  | statusQ
  | startC (s : String)
  | stopC (s : String)
  | restartC (s : String)
deriving DecidableEq, Repr

/-- Effect of one request on the mutable process state (registry, clock). -/
def applyCall (w : World) (st : Registry × Nat) : Call → Registry × Nat
  | Call.statusQ =>
    let o := get_services_status w st.2 st.1
    (o.2.1, st.2)
  | Call.startC s =>
    let o := start_service w st.2 st.1 s
    (o.reg, o.time)
  | Call.stopC s =>
    let o := stop_service w st.2 st.1 s
    (o.reg, o.time)
  | Call.restartC s =>
    let o := restart_service w st.2 st.1 s
    (o.reg, o.time)

/-- Effect of a sequence of requests, served one after the other. -/
def runCalls (w : World) : List Call → Registry × Nat → Registry × Nat
  | [], st => st
  | c :: cs, st => runCalls w cs (applyCall w st c)

end LLMApi

namespace LLMApi

/-! ## Helper lemmas and concrete worlds -/

/-- What one loop iteration of `update_service_status` computes for a
single entry, written as a function of the raw observations. -/
def reconcileEntry (w : World) (t : Nat) (service : String) (port : Nat)
    (old : ServiceState) : ServiceState :=
  if pidTruthy (w.portPid t port) && (check_service_health w t service).1 then
    { old with pid := w.portPid t port, status := "running" }
  else
    { old with pid := none, status := "stopped" }

theorem update_one_nllb (w : World) (t : Nat) (reg : Registry) :
    (update_one w t "nllb" reg).1 =
      { reg with nllb := reconcileEntry w t "nllb" 8000 reg.nllb } := by
  simp only [update_one, reconcileEntry, get_process_by_port, Registry.set,
    Registry.get, Bool.and_eq_true]
  rcases hp : pidTruthy (w.portPid t 8000) with _ | _ <;>
    rcases hh : (check_service_health w t "nllb").1 with _ | _ <;> simp [hp, hh]

theorem update_one_ollama (w : World) (t : Nat) (reg : Registry) :
    (update_one w t "ollama" reg).1 =
      { reg with ollama := reconcileEntry w t "ollama" 8001 reg.ollama } := by
  simp only [update_one, reconcileEntry, get_process_by_port, Registry.set,
    Registry.get, Bool.and_eq_true]
  rcases hp : pidTruthy (w.portPid t 8001) with _ | _ <;>
    rcases hh : (check_service_health w t "ollama").1 with _ | _ <;> simp [hp, hh]

/-- The registry produced by one reconciliation pass, entry by entry. -/
theorem update_service_status_fst (w : World) (t : Nat) (reg : Registry) :
    (update_service_status w t reg).1 =
      { nllb := reconcileEntry w t "nllb" 8000 reg.nllb,
        ollama := reconcileEntry w t "ollama" 8001 reg.ollama } := by
  simp [update_service_status, update_one_nllb, update_one_ollama]

theorem reconcileEntry_start_time (w : World) (t : Nat) (service : String)
    (port : Nat) (old : ServiceState) :
    (reconcileEntry w t service port old).start_time = old.start_time := by
  simp only [reconcileEntry]
  split <;> rfl

/-- A world in which both ports stay bound and both health probes keep
answering true, while every control script exits cleanly. -/
def busyWorld : World :=
  { health := fun _ _ => true, portPid := fun _ _ => some 7,
    startScript := fun _ => ScriptOutcome.completed "o" "" 0,
    stopScript := fun _ => ScriptOutcome.completed "so" "" 0 }

/-- A world in which no port is bound and health probes always fail, while
every control script exits cleanly. -/
def idleWorld : World :=
  { health := fun _ _ => false, portPid := fun _ _ => none,
    startScript := fun _ => ScriptOutcome.completed "o" "" 0,
    stopScript := fun _ => ScriptOutcome.completed "so" "" 0 }

/-- A registry whose cached `nllb` entry claims the service is running. -/
def cachedBusyReg : Registry :=
  { nllb := { pid := some 5, status := "running", start_time := none },
    ollama := { pid := none, status := "stopped", start_time := none } }

/-! ## C7 -/

/-- C7 counterexample: `run_script` maps a wall-clock timeout to the very
triple `('', 'Script timed out', 1)` that a normally-completing script
producing that stdout/stderr/exit-code also yields, so the two outcomes
are not distinguished and callers cannot branch on which occurred. -/
theorem run_script_timeout_indistinguishable :
    run_script ScriptOutcome.timedOut =
      run_script (ScriptOutcome.completed "" "Script timed out" 1) := rfl

/-- C7 amended: on a wall-clock timeout `run_script` returns the normal
failed triple `('', 'Script timed out', 1)` — exit code 1 with a sentinel
stderr text, the same shape as a non-zero-exit result, not a distinct
ScriptTimeout failure kind. -/
theorem run_script_timeout_collapsed :
    run_script ScriptOutcome.timedOut = ("", "Script timed out", 1) ∧
      (run_script ScriptOutcome.timedOut).2.2 =
        (run_script (ScriptOutcome.completed "x" "y" 1)).2.2 :=
  ⟨rfl, rfl⟩

/-! ## C1 -/

/-- C1 counterexample: the stop script exits 0 but after the settle delay
the port is still bound and health still true, yet `stop_service` returns
a plain 200 success whose own status field says `running`; no
StopIncompleteError is raised. -/
theorem stop_success_while_still_running :
    (stop_service busyWorld 0 service_processes "nllb").res =
      HResult.resp (Resp.ok
        { success := some true,
          message := some "nllb service stopped successfully",
          error := none, status := some "running", stdout := some "so" }) ∧
    (stop_service busyWorld 0 service_processes "nllb").reg.nllb.status =
      "running" := by
  constructor <;> rfl

/-- C1 amended: for a known service, `stop_service` returns success
exactly when the stop script exits 0; the reconciled state after the
settle delay is not checked for success, it only supplies the status
string reported in the body (which may still be `running`). -/
theorem stop_clean_script_always_succeeds (w : World) (t : Nat)
    (reg : Registry) (s : String) (hs : s = "nllb" ∨ s = "ollama")
    (hrc : (run_script (w.stopScript s)).2.2 = 0) :
    stop_service w t reg s =
      { res := HResult.resp (Resp.ok
          { success := some true,
            message := some (s ++ " service stopped successfully"),
            error := none,
            status := some
              (((update_service_status w (t + 2) reg).1.get s).status),
            stdout := some (run_script (w.stopScript s)).1 }),
        reg := (update_service_status w (t + 2) reg).1,
        time := t + 2,
        trace := Event.script ("stop-" ++ s ++ ".sh") (w.stopScript s) ::
          Event.sleep 2 :: (update_service_status w (t + 2) reg).2 } := by
  rcases hs with hs | hs <;> subst hs <;>
    simp [stop_service, Body.base, hrc]

/-- C1 amended, witnessed at a concrete input: in `busyWorld` at time 0
the stop script exits 0 and Stop succeeds even though reconciliation
still reports `running`. -/
theorem stop_clean_script_always_succeeds_witness :
    (run_script (busyWorld.stopScript "nllb")).2.2 = 0 ∧
    stop_service busyWorld 0 service_processes "nllb" =
      { res := HResult.resp (Resp.ok
          { success := some true,
            message := some ("nllb" ++ " service stopped successfully"),
            error := none,
            status := some
              (((update_service_status busyWorld (0 + 2)
                  service_processes).1.get "nllb").status),
            stdout := some (run_script (busyWorld.stopScript "nllb")).1 }),
        reg := (update_service_status busyWorld (0 + 2) service_processes).1,
        time := 0 + 2,
        trace := Event.script ("stop-" ++ "nllb" ++ ".sh")
            (busyWorld.stopScript "nllb") ::
          Event.sleep 2 ::
          (update_service_status busyWorld (0 + 2) service_processes).2 } :=
  ⟨rfl, stop_clean_script_always_succeeds busyWorld 0 service_processes
    "nllb" (Or.inl rfl) rfl⟩

end LLMApi

namespace LLMApi

/-! ## C3 -/

/-- C3 counterexample: with `nllb` cached as running but no process on
port 8000, the registry after a `GET /services/status` query differs from
the registry before it — the query overwrote status and pid. -/
theorem status_query_mutates_registry :
    (get_services_status idleWorld 0 cachedBusyReg).2.1 ≠ cachedBusyReg := by
  decide

/-- C3 amended: a status query reconciles, overwriting each per-service
status and pid with the freshly observed values: the registry afterwards
is exactly `update_service_status` of the registry before (so it can
differ from the prior registry), while `start_time` fields are never
touched. -/
theorem status_query_reconciles (w : World) (t : Nat) (reg : Registry) :
    (get_services_status w t reg).2.1 = (update_service_status w t reg).1 ∧
    (get_services_status w t reg).2.1.nllb.start_time =
      reg.nllb.start_time ∧
    (get_services_status w t reg).2.1.ollama.start_time =
      reg.ollama.start_time := by
  refine ⟨rfl, ?_, ?_⟩ <;>
    simp [get_services_status, update_service_status_fst,
      reconcileEntry_start_time]

/-! ## C8 -/

/-- C8: every lifecycle endpoint answers an unknown service name with the
`Invalid service` 400 response, leaves the registry and the clock exactly
as they were, and performs no external action at all (in particular, runs
no script). -/
theorem unknown_service_rejected_everywhere (w : World) (t : Nat)
    (reg : Registry) (s : String) (hs : ¬ (s = "nllb" ∨ s = "ollama")) :
    start_service w t reg s =
      { res := HResult.resp (Resp.withCode
          { Body.base with error := some "Invalid service" } 400),
        reg := reg, time := t, trace := [] } ∧
    stop_service w t reg s =
      { res := HResult.resp (Resp.withCode
          { Body.base with error := some "Invalid service" } 400),
        reg := reg, time := t, trace := [] } ∧
    restart_service w t reg s =
      { res := HResult.resp (Resp.withCode
          { Body.base with error := some "Invalid service" } 400),
        reg := reg, time := t, trace := [] } := by
  refine ⟨?_, ?_, ?_⟩ <;>
    simp [start_service, stop_service, restart_service, invalidServiceOut, hs]

/-- C8 witnessed at the concrete unknown name `gpt`. -/
theorem unknown_service_rejected_everywhere_witness :
    ¬ ("gpt" = "nllb" ∨ "gpt" = "ollama") ∧
    (start_service busyWorld 0 service_processes "gpt" =
      { res := HResult.resp (Resp.withCode
          { Body.base with error := some "Invalid service" } 400),
        reg := service_processes, time := 0, trace := [] } ∧
    stop_service busyWorld 0 service_processes "gpt" =
      { res := HResult.resp (Resp.withCode
          { Body.base with error := some "Invalid service" } 400),
        reg := service_processes, time := 0, trace := [] } ∧
    restart_service busyWorld 0 service_processes "gpt" =
      { res := HResult.resp (Resp.withCode
          { Body.base with error := some "Invalid service" } 400),
        reg := service_processes, time := 0, trace := [] }) :=
  ⟨by decide, unknown_service_rejected_everywhere busyWorld 0
    service_processes "gpt" (by decide)⟩

/-! ## C4 -/

/-- C4: when the health probe of a known service already answers true,
`start_service` returns the `already running` 200 success at once, the
registry and clock are unchanged, and the only external event is that
single probe — in particular no script event occurs. -/
theorem start_already_healthy_noop (w : World) (t : Nat) (reg : Registry)
    (s : String) (hs : s = "nllb" ∨ s = "ollama")
    (hh : (check_service_health w t s).1 = true) :
    start_service w t reg s =
      { res := HResult.resp (Resp.ok
          { success := some true,
            message := some (s ++ " service is already running"),
            error := none, status := some "running", stdout := none }),
        reg := reg, time := t, trace := [Event.probe s true] } ∧
    ∀ p o, Event.script p o ∉ (start_service w t reg s).trace := by
  have hmain : start_service w t reg s =
      { res := HResult.resp (Resp.ok
          { success := some true,
            message := some (s ++ " service is already running"),
            error := none, status := some "running", stdout := none }),
        reg := reg, time := t, trace := [Event.probe s true] } := by
    rcases hs with hs | hs <;> subst hs <;>
      simp_all [start_service, check_service_health, Body.base]
  refine ⟨hmain, ?_⟩
  intro p o
  rw [hmain]
  simp

/-- C4 witnessed in `busyWorld`, where the probe already answers true. -/
theorem start_already_healthy_noop_witness :
    (check_service_health busyWorld 0 "nllb").1 = true ∧
    (start_service busyWorld 0 service_processes "nllb" =
      { res := HResult.resp (Resp.ok
          { success := some true,
            message := some ("nllb" ++ " service is already running"),
            error := none, status := some "running", stdout := none }),
        reg := service_processes, time := 0,
        trace := [Event.probe "nllb" true] } ∧
    ∀ p o, Event.script p o ∉
      (start_service busyWorld 0 service_processes "nllb").trace) :=
  ⟨rfl, start_already_healthy_noop busyWorld 0 service_processes "nllb"
    (Or.inl rfl) rfl⟩

end LLMApi

namespace LLMApi

/-! ## C5 -/

theorem check_snd_of_true (w : World) (t : Nat) (s : String)
    (h : (check_service_health w t s).1 = true) :
    (check_service_health w t s).2 = [Event.probe s true] := by
  by_cases h1 : s = "nllb" <;> by_cases h2 : s = "ollama" <;>
    simp_all [check_service_health]

theorem startPoll_ok_probe (w : World) (reg : Registry) (s sd : String) :
    ∀ n acc t body,
      (startPoll w reg s sd acc t n).res = HResult.resp (Resp.ok body) →
      Event.probe s true ∈ (startPoll w reg s sd acc t n).trace := by
  intro n
  induction n with
  | zero => intro acc t body h; simp [startPoll] at h
  | succ n ih =>
    intro acc t body h
    by_cases hc : (check_service_health w (t + 2) s).1 = true
    · have htr : (startPoll w reg s sd acc t (n + 1)).trace =
          acc ++ [Event.sleep 2] ++ (check_service_health w (t + 2) s).2 ++
            (update_service_status w (t + 2) reg).2 := by
        simp [startPoll, hc]
      rw [htr, check_snd_of_true w (t + 2) s hc]
      simp
    · rw [Bool.not_eq_true] at hc
      have heq : startPoll w reg s sd acc t (n + 1) =
          startPoll w reg s sd
            (acc ++ [Event.sleep 2] ++ (check_service_health w (t + 2) s).2)
            (t + 2) n := by
        simp [startPoll, hc]
      rw [heq] at h ⊢
      exact ih _ _ body h

/-- C5: whenever `start_service` returns a 200 success, some health probe
for that very service performed inside the same invocation returned true
— success is never reported without a positive probe. -/
theorem start_success_has_true_probe (w : World) (t : Nat) (reg : Registry)
    (s : String) (body : Body)
    (h : (start_service w t reg s).res = HResult.resp (Resp.ok body)) :
    Event.probe s true ∈ (start_service w t reg s).trace := by
  by_cases hk : s = "nllb" ∨ s = "ollama"
  · by_cases hh : (check_service_health w t s).1 = true
    · have htr : (start_service w t reg s).trace =
          (check_service_health w t s).2 := by
        simp [start_service, hk, hh]
      rw [htr, check_snd_of_true w t s hh]
      simp
    · rw [Bool.not_eq_true] at hh
      by_cases hrc : (run_script (w.startScript s)).2.2 = 0
      · have heq : start_service w t reg s =
            startPoll w reg s (run_script (w.startScript s)).1
              ((check_service_health w t s).2 ++
                [Event.script ("start-" ++ s ++ ".sh") (w.startScript s)])
              t 15 := by
          simp [start_service, hk, hh, hrc]
        rw [heq] at h ⊢
        exact startPoll_ok_probe w reg s _ 15 _ t body h
      · have hres : (start_service w t reg s).res =
            HResult.resp (Resp.withCode
              { Body.base with
                success := some false,
                error := some ("Failed to start " ++ s ++ ": " ++
                  (run_script (w.startScript s)).2.1),
                stdout := some (run_script (w.startScript s)).1 } 500) := by
          simp [start_service, hk, hh, hrc]
        rw [hres] at h
        exact absurd h (by simp)
  · have hres : (start_service w t reg s).res =
        HResult.resp (Resp.withCode
          { Body.base with error := some "Invalid service" } 400) := by
      simp [start_service, invalidServiceOut, hk]
    rw [hres] at h
    exact absurd h (by simp)

/-- C5 witnessed in `busyWorld`: Start returns success and its trace
indeed holds a positive probe for the service. -/
theorem start_success_has_true_probe_witness :
    (start_service busyWorld 0 service_processes "nllb").res =
      HResult.resp (Resp.ok
        { success := some true,
          message := some "nllb service is already running",
          error := none, status := some "running", stdout := none }) ∧
    Event.probe "nllb" true ∈
      (start_service busyWorld 0 service_processes "nllb").trace :=
  ⟨rfl, start_success_has_true_probe busyWorld 0 service_processes "nllb"
    { success := some true,
      message := some "nllb service is already running",
      error := none, status := some "running", stdout := none } rfl⟩

/-! ## C2 -/

/-- C2: evaluating `restart_service` at an input where the stop script
exits 0 (and stop therefore answers with a bare 200 Response): the Python
code subscripts that Response with `stop_result[0]`, which raises
TypeError, so the request dies with a generic 500 and the start script is
never run — the trace holds the stop script event only. -/
theorem restart_crashes_after_successful_stop :
    restart_service busyWorld 0 service_processes "nllb" =
      { res := HResult.crash "TypeError: Response object is not subscriptable",
        reg := { nllb := { pid := some 7, status := "running",
                           start_time := none },
                 ollama := { pid := some 7, status := "running",
                             start_time := none } },
        time := 2,
        trace := [Event.script "stop-nllb.sh"
            (ScriptOutcome.completed "so" "" 0),
          Event.sleep 2,
          Event.portQuery 8000 (some 7), Event.probe "nllb" true,
          Event.portQuery 8001 (some 7), Event.probe "ollama" true] } := by
  rfl

end LLMApi

namespace LLMApi

/-! ## C6 -/

/-- Trace of `j` consecutive failed polling attempts: each costs one
`time.sleep(2)` followed by a negative probe. -/
def failAttempts (s : String) : Nat → List Event
  | 0 => []
  | Nat.succ j => Event.sleep 2 :: Event.probe s false :: failAttempts s j

theorem check_snd_of_false (w : World) (t : Nat) (s : String)
    (hs : s = "nllb" ∨ s = "ollama")
    (h : (check_service_health w t s).1 = false) :
    (check_service_health w t s).2 = [Event.probe s false] := by
  rcases hs with hs | hs <;> subst hs <;> simp_all [check_service_health]

theorem startPoll_all_false (w : World) (reg : Registry) (s sd : String)
    (hs : s = "nllb" ∨ s = "ollama") :
    ∀ n t acc,
      (∀ i, i < n → (check_service_health w (t + 2 * (i + 1)) s).1 = false) →
      startPoll w reg s sd acc t n =
        { res := HResult.resp (Resp.withCode
            { Body.base with
              success := some false,
              error := some (s ++ " service failed to start within timeout"),
              stdout := some sd } 500),
          reg := reg, time := t + 2 * n,
          trace := acc ++ failAttempts s n } := by
  intro n
  induction n with
  | zero => intro t acc _; simp [startPoll, failAttempts]
  | succ n ih =>
    intro t acc hall
    have h0 : (check_service_health w (t + 2) s).1 = false := by
      have := hall 0 (by omega)
      rwa [show t + 2 * (0 + 1) = t + 2 by ring] at this
    have hall2 : ∀ i, i < n →
        (check_service_health w (t + 2 + 2 * (i + 1)) s).1 = false := by
      intro i hi
      have := hall (i + 1) (by omega)
      rwa [show t + 2 * (i + 1 + 1) = t + 2 + 2 * (i + 1) by ring] at this
    have hstep : startPoll w reg s sd acc t (n + 1) =
        startPoll w reg s sd
          (acc ++ [Event.sleep 2] ++ [Event.probe s false]) (t + 2) n := by
      simp [startPoll, h0, check_snd_of_false w (t + 2) s hs h0]
    rw [hstep, ih (t + 2) _ hall2]
    simp only [HOut.mk.injEq]
    refine ⟨trivial, trivial, by ring, by simp [failAttempts]⟩

theorem startPoll_first_true (w : World) (reg : Registry) (s sd : String)
    (hs : s = "nllb" ∨ s = "ollama") :
    ∀ n t acc j, j < n →
      (check_service_health w (t + 2 * (j + 1)) s).1 = true →
      (∀ i, i < j → (check_service_health w (t + 2 * (i + 1)) s).1 = false) →
      startPoll w reg s sd acc t n =
        { res := HResult.resp (Resp.ok
            { Body.base with
              success := some true,
              message := some (s ++ " service started successfully"),
              status := some "running", stdout := some sd }),
          reg := (update_service_status w (t + 2 * (j + 1)) reg).1,
          time := t + 2 * (j + 1),
          trace := acc ++ failAttempts s j ++
            [Event.sleep 2, Event.probe s true] ++
            (update_service_status w (t + 2 * (j + 1)) reg).2 } := by
  intro n
  induction n with
  | zero => intro t acc j hj; omega
  | succ n ih =>
    intro t acc j hj htrue hfalse
    cases j with
    | zero =>
      have h0 : (check_service_health w (t + 2) s).1 = true := by
        rwa [show t + 2 * (0 + 1) = t + 2 by ring] at htrue
      have hupd : t + 2 * (0 + 1) = t + 2 := by ring
      rw [hupd]
      have := check_snd_of_true w (t + 2) s h0
      simp only [startPoll, h0, if_pos]
      simp [this, failAttempts]
    | succ j =>
      have h0 : (check_service_health w (t + 2) s).1 = false := by
        have := hfalse 0 (by omega)
        rwa [show t + 2 * (0 + 1) = t + 2 by ring] at this
      have htrue2 : (check_service_health w (t + 2 + 2 * (j + 1)) s).1 =
          true := by
        rwa [show t + 2 * (j + 1 + 1) = t + 2 + 2 * (j + 1) by ring] at htrue
      have hfalse2 : ∀ i, i < j →
          (check_service_health w (t + 2 + 2 * (i + 1)) s).1 = false := by
        intro i hi
        have := hfalse (i + 1) (by omega)
        rwa [show t + 2 * (i + 1 + 1) = t + 2 + 2 * (i + 1) by ring] at this
      have hstep : startPoll w reg s sd acc t (n + 1) =
          startPoll w reg s sd
            (acc ++ [Event.sleep 2] ++ [Event.probe s false]) (t + 2) n := by
        simp [startPoll, h0, check_snd_of_false w (t + 2) s hs h0]
      rw [hstep, ih (t + 2) _ j (by omega) htrue2 hfalse2]
      have harith : t + 2 + 2 * (j + 1) = t + 2 * (j + 1 + 1) := by ring
      rw [harith]
      simp only [HOut.mk.injEq]
      refine ⟨trivial, trivial, trivial, by simp [failAttempts]⟩

/-- C6: for a known service whose probe is initially negative and whose
start script exits 0, `start_service` polls health at 2-second intervals
up to exactly 15 attempts: if all 15 probes are negative it answers the
`failed to start within timeout` 500 after 30 seconds with the registry
untouched; if attempt `j` (zero-based) is the first positive one it stops
polling there, reconciles, and answers the 200 success at time
`t + 2*(j+1)`. -/
theorem start_polls_health_15_times (w : World) (t : Nat) (reg : Registry)
    (s : String) (hs : s = "nllb" ∨ s = "ollama")
    (hh : (check_service_health w t s).1 = false)
    (hrc : (run_script (w.startScript s)).2.2 = 0) :
    ((∀ i, i < 15 → (check_service_health w (t + 2 * (i + 1)) s).1 = false) →
      start_service w t reg s =
        { res := HResult.resp (Resp.withCode
            { Body.base with
              success := some false,
              error := some (s ++ " service failed to start within timeout"),
              stdout := some (run_script (w.startScript s)).1 } 500),
          reg := reg, time := t + 2 * 15,
          trace := Event.probe s false ::
            Event.script ("start-" ++ s ++ ".sh") (w.startScript s) ::
            failAttempts s 15 }) ∧
    (∀ j, j < 15 →
      (check_service_health w (t + 2 * (j + 1)) s).1 = true →
      (∀ i, i < j → (check_service_health w (t + 2 * (i + 1)) s).1 = false) →
      start_service w t reg s =
        { res := HResult.resp (Resp.ok
            { Body.base with
              success := some true,
              message := some (s ++ " service started successfully"),
              status := some "running",
              stdout := some (run_script (w.startScript s)).1 }),
          reg := (update_service_status w (t + 2 * (j + 1)) reg).1,
          time := t + 2 * (j + 1),
          trace := Event.probe s false ::
            Event.script ("start-" ++ s ++ ".sh") (w.startScript s) ::
            (failAttempts s j ++ [Event.sleep 2, Event.probe s true] ++
              (update_service_status w (t + 2 * (j + 1)) reg).2) }) := by
  have heq : start_service w t reg s =
      startPoll w reg s (run_script (w.startScript s)).1
        ([Event.probe s false] ++
          [Event.script ("start-" ++ s ++ ".sh") (w.startScript s)]) t 15 := by
    have h2 := check_snd_of_false w t s hs hh
    simp [start_service, hs, hh, hrc, h2]
  constructor
  · intro hall
    rw [heq, startPoll_all_false w reg s _ hs 15 t _ hall]
    simp
  · intro j hj htrue hfalse
    rw [heq, startPoll_first_true w reg s _ hs 15 t _ j hj htrue hfalse]
    simp

/-- A world whose health endpoints come up at second 6: probes at seconds
2 and 4 fail, the probe at second 6 (the third attempt) succeeds. -/
def w6 : World :=
  { health := fun t _ => decide (6 ≤ t), portPid := fun _ _ => some 1234,
    startScript := fun _ => ScriptOutcome.completed "started" "" 0,
    stopScript := fun _ => ScriptOutcome.completed "" "" 0 }

/-- C6 witnessed in `w6` (the 3rd-probe scenario of the spec): Start runs
the script, fails the probes at seconds 2 and 4, succeeds on the 3rd
attempt at second 6, reconciles and returns the 200 success. -/
theorem start_polls_health_15_times_witness :
    (check_service_health w6 0 "nllb").1 = false ∧
    (check_service_health w6 (0 + 2 * (2 + 1)) "nllb").1 = true ∧
    start_service w6 0 service_processes "nllb" =
      { res := HResult.resp (Resp.ok
          { Body.base with
            success := some true,
            message := some ("nllb" ++ " service started successfully"),
            status := some "running",
            stdout := some (run_script (w6.startScript "nllb")).1 }),
        reg := (update_service_status w6 (0 + 2 * (2 + 1))
          service_processes).1,
        time := 0 + 2 * (2 + 1),
        trace := Event.probe "nllb" false ::
          Event.script ("start-" ++ "nllb" ++ ".sh")
            (w6.startScript "nllb") ::
          (failAttempts "nllb" 2 ++ [Event.sleep 2, Event.probe "nllb" true] ++
            (update_service_status w6 (0 + 2 * (2 + 1))
              service_processes).2) } :=
  ⟨by decide, by decide,
    (start_polls_health_15_times w6 0 service_processes "nllb"
      (Or.inl rfl) (by decide) (by decide)).2 2 (by decide) (by decide)
      (by decide)⟩

end LLMApi

namespace LLMApi

/-! ## C10 -/

/-- The stored pid is non-None exactly when the stored status is
`running`. -/
def pidStatusConsistent (st : ServiceState) : Prop :=
  st.pid.isSome = true ↔ st.status = "running"

/-- Both registry entries are pid/status consistent. -/
def RegInv (reg : Registry) : Prop :=
  pidStatusConsistent reg.nllb ∧ pidStatusConsistent reg.ollama

theorem pidTruthy_isSome (o : Option Nat) (h : pidTruthy o = true) :
    o.isSome = true := by
  cases o <;> simp_all [pidTruthy]

theorem reconcileEntry_consistent (w : World) (t : Nat) (s : String)
    (p : Nat) (old : ServiceState) :
    pidStatusConsistent (reconcileEntry w t s p old) := by
  simp only [reconcileEntry, pidStatusConsistent]
  split
  · rename_i h
    rw [Bool.and_eq_true] at h
    simp [pidTruthy_isSome _ h.1]
  · simp

theorem update_service_status_inv (w : World) (t : Nat) (reg : Registry) :
    RegInv (update_service_status w t reg).1 := by
  rw [update_service_status_fst]
  exact ⟨reconcileEntry_consistent w t "nllb" 8000 reg.nllb,
    reconcileEntry_consistent w t "ollama" 8001 reg.ollama⟩

theorem startPoll_reg_cases (w : World) (reg : Registry) (s sd : String) :
    ∀ n acc t, (startPoll w reg s sd acc t n).reg = reg ∨
      ∃ t2, (startPoll w reg s sd acc t n).reg =
        (update_service_status w t2 reg).1 := by
  intro n
  induction n with
  | zero => intro acc t; left; rfl
  | succ n ih =>
    intro acc t
    by_cases hc : (check_service_health w (t + 2) s).1 = true
    · right
      exact ⟨t + 2, by simp [startPoll, hc]⟩
    · rw [Bool.not_eq_true] at hc
      have hstep : startPoll w reg s sd acc t (n + 1) =
          startPoll w reg s sd
            (acc ++ [Event.sleep 2] ++ (check_service_health w (t + 2) s).2)
            (t + 2) n := by
        simp [startPoll, hc]
      rw [hstep]
      exact ih _ (t + 2)

theorem start_service_inv (w : World) (t : Nat) (reg : Registry)
    (s : String) (h : RegInv reg) : RegInv (start_service w t reg s).reg := by
  by_cases hk : s = "nllb" ∨ s = "ollama"
  · by_cases hh : (check_service_health w t s).1 = true
    · have : (start_service w t reg s).reg = reg := by
        simp [start_service, hk, hh]
      rwa [this]
    · rw [Bool.not_eq_true] at hh
      by_cases hrc : (run_script (w.startScript s)).2.2 = 0
      · have heq : start_service w t reg s =
            startPoll w reg s (run_script (w.startScript s)).1
              ((check_service_health w t s).2 ++
                [Event.script ("start-" ++ s ++ ".sh") (w.startScript s)])
              t 15 := by
          simp [start_service, hk, hh, hrc]
        rw [heq]
        rcases startPoll_reg_cases w reg s _ 15 _ t with hr | ⟨t2, hr⟩
        · rwa [hr]
        · rw [hr]; exact update_service_status_inv w t2 reg
      · have : (start_service w t reg s).reg = reg := by
          simp [start_service, hk, hh, hrc]
        rwa [this]
  · have : (start_service w t reg s).reg = reg := by
      simp [start_service, invalidServiceOut, hk]
    rwa [this]

theorem stop_service_inv (w : World) (t : Nat) (reg : Registry)
    (s : String) (h : RegInv reg) : RegInv (stop_service w t reg s).reg := by
  by_cases hk : s = "nllb" ∨ s = "ollama"
  · by_cases hrc : (run_script (w.stopScript s)).2.2 = 0
    · have : (stop_service w t reg s).reg =
          (update_service_status w (t + 2) reg).1 := by
        simp [stop_service, hk, hrc]
      rw [this]; exact update_service_status_inv w (t + 2) reg
    · have : (stop_service w t reg s).reg = reg := by
        simp [stop_service, hk, hrc]
      rwa [this]
  · have : (stop_service w t reg s).reg = reg := by
      simp [stop_service, invalidServiceOut, hk]
    rwa [this]

theorem restart_service_inv (w : World) (t : Nat) (reg : Registry)
    (s : String) (h : RegInv reg) :
    RegInv (restart_service w t reg s).reg := by
  by_cases hk : s = "nllb" ∨ s = "ollama"
  · have hstop : RegInv (stop_service w t reg s).reg :=
      stop_service_inv w t reg s h
    simp only [restart_service, if_neg (not_not_intro hk)]
    split
    · exact hstop
    · split
      · exact hstop
      · exact start_service_inv w _ _ s hstop
    · exact hstop
  · have : (restart_service w t reg s).reg = reg := by
      simp [restart_service, invalidServiceOut, hk]
    rwa [this]

theorem applyCall_inv (w : World) (st : Registry × Nat) (c : Call)
    (h : RegInv st.1) : RegInv (applyCall w st c).1 := by
  cases c with
  | statusQ => exact update_service_status_inv w st.2 st.1
  | startC s => exact start_service_inv w st.2 st.1 s h
  | stopC s => exact stop_service_inv w st.2 st.1 s h
  | restartC s => exact restart_service_inv w st.2 st.1 s h

theorem runCalls_inv (w : World) :
    ∀ cs st, RegInv st.1 → RegInv (runCalls w cs st).1 := by
  intro cs
  induction cs with
  | nil => intro st h; exact h
  | cons c cs ih => intro st h; exact ih _ (applyCall_inv w st c h)

/-- C10: the pid field is non-None exactly when the status field is
`running`: the initial `service_processes` registry satisfies this, one
reconciliation pass always re-establishes it for both entries, and it is
preserved by every sequence of API handler invocations from the initial
registry. -/
theorem registry_pid_status_invariant :
    RegInv service_processes ∧
    (∀ w t reg, RegInv (update_service_status w t reg).1) ∧
    (∀ w cs, RegInv (runCalls w cs (service_processes, 0)).1) := by
  have h0 : RegInv service_processes := by
    constructor <;> simp [pidStatusConsistent, service_processes]
  exact ⟨h0, fun w t reg => update_service_status_inv w t reg,
    fun w cs => runCalls_inv w cs (service_processes, 0) h0⟩

end LLMApi
